import Mathlib

/-!
Verification of the MoonAI chat server (`moonai-server.py`).

The development shallowly embeds the server's intent classifier, the chat
request handler with its two-provider alternation/fallback router, and the
in-memory conversation store.  Python dictionaries are modelled as
association lists, the two upstream provider calls as an oracle function
`Provider → List Message → ProviderResult`, and the Flask JSON responses
as explicit result types.  Python's in-place list mutation through the
alias returned by `conversations.get(conversation_id, [])` is modelled
explicitly: the user-message append is visible in the store exactly when
the conversation id was already present.
-/

set_option maxHeartbeats 1000000
set_option maxRecDepth 8000
set_option linter.unnecessarySimpa false

/-- Lower-casing of a string to its character list, modelling Python's `.lower()`
on the ASCII inputs the keyword lists address. -/
def pyLower (s : String) : List Char := s.toList.map Char.toLower

/-- Removal of leading and trailing whitespace, modelling Python's `.strip()`. -/
def stripList (l : List Char) : List Char :=
  ((l.dropWhile Char.isWhitespace).reverse.dropWhile Char.isWhitespace).reverse

/-- The `message.lower().strip()` normalisation shared by all four classifiers. -/
def pyNormalize (s : String) : List Char := stripList (pyLower s)

/-- Substring containment test, modelling Python's `keyword in lower`. -/
def containsKeyword (msg : List Char) (keyword : String) : Bool :=
  msg.tails.any (fun t => keyword.toList.isPrefixOf t)

/-- Keywords that indicate code requests, from `CODE_KEYWORDS` in the source. -/
def CODE_KEYWORDS : List String := [
  "code", "syntax", "script", "program", "function",
  "example", "snippet", "how to code", "how to write",
  "show me how", "show me a example", "show me a syntax",
  "show me a code", "show me a script", "show me a function",
  "write a", "write me a", "write me the",
  "give me a code", "give me a syntax", "give me a script",
  "give me an example", "give me a function",
  "print hello", "hello world", "algorithm", "pseudocode",
  "how do i", "how to make a", "how to build a",
  "tutorial", "explain how", "show me how to",
  "loop", "array", "string", "integer", "variable",
  "class", "object", "method", "import", "library"]

/-- Keywords that indicate image generation requests, from `IMAGE_KEYWORDS`. -/
def IMAGE_KEYWORDS : List String := [
  "/image", "/img", "/imagine", "/draw", "/paint", "/generate",
  "generate image", "generate a image", "generate an image",
  "generate me", "generate a photo", "generate a picture",
  "generate a drawing", "generate a illustration",
  "create image", "create a image", "create an image",
  "create me", "create a photo", "create a picture",
  "create a drawing", "create a illustration",
  "make image", "make a image", "make an image",
  "make me", "make a photo", "make a picture",
  "make a drawing", "make a illustration",
  "draw", "draw me", "draw a", "draw an", "draw something",
  "paint", "paint me", "paint a", "paint an",
  "show me a", "show me an", "show me image", "show me picture",
  "render", "render me", "render a", "render an",
  "image of", "picture of", "photo of", "illustration of",
  "drawing of", "painting of", "sketch of",
  "generate picture", "create picture", "make picture",
  "generate photo", "create photo", "make photo",
  "can you draw", "can you paint", "can you generate",
  "can you create a image", "can you make a image",
  "can you create an image", "can you make an image",
  "can you show me a picture", "can you show me an image",
  "visualize", "visualise", "design me", "design a",
  "produce an image", "produce a picture"]

/-- Keywords that indicate creator/about questions, from `CREATOR_KEYWORDS`. -/
def CREATOR_KEYWORDS : List String := [
  "who made you", "who made u", "who made this",
  "who created you", "who created u", "who created this",
  "who built you", "who built u", "who built this",
  "who designed you", "who designed u", "who designed this",
  "who developed you", "who developed u", "who developed this",
  "who coded you", "who coded u", "who coded this",
  "who programmed you", "who programmed u", "who programmed this",
  "who wrote you", "who wrote u", "who made u bro",
  "who is your creator", "who is your developer",
  "who is your maker", "who is your owner",
  "who is your author", "who is your programmer",
  "your creator", "your developer", "your maker",
  "your author", "your owner", "your programmer",
  "who are you", "who r u", "who ru",
  "what are you", "what r u",
  "what is moonai", "what is moon ai",
  "tell me about yourself", "tell me about you",
  "about you", "about yourself",
  "introduce yourself", "introduce urself",
  "are you ai", "are you a bot", "are you a robot",
  "are you chatgpt", "are you gemini", "are you gpt",
  "made by who", "created by who", "built by who",
  "developed by who", "coded by who",
  "where are you from", "where do you come from",
  "what is your origin", "whats your origin"]

/-- Keywords asking about moonlost, from `MOONLOST_KEYWORDS`. -/
def MOONLOST_KEYWORDS : List String := [
  "who is moonlost", "who is moon lost", "moonlost who",
  "tell me about moonlost", "tell me about moon lost",
  "what is moonlost", "what is moon lost",
  "moonlost info", "moonlost information",
  "who is the owner", "who is the creator moonlost",
  "about moonlost", "moonlost?",
  "moonlost developer", "moonlost creator",
  "is moonlost a person", "is moonlost real",
  "who is moon"]

/-- Canned answer about moonlost, from `MOONLOST_RESPONSE` in the source. -/
def MOONLOST_RESPONSE : String :=
  "**Moonlost🌕** — Creator & Developer of MoonAI\n\nDespite the rumors of his otherworldly origins, Moonlost is not an alien; he is a human visionary who looked at the stars and decided to build a bridge for the rest of us. He is the founder and commanding leader of **GoS**, the galaxy\x27s most prestigious collective of space explorers dedicated to charting the unknown reaches of the deep cosmos.\n\nMoonlost engineered the **MoonAI** structure with a singular goal: to streamline human labor through advanced technology, making our daily lives as effortless as a walk in zero gravity. But even a cosmic pioneer needs a break. When he isn\x27t leading interstellar expeditions or refining neural networks, Moonlost enjoys the simple joys of life — immersing himself in video games and relaxing with his loyal companion, **Luki🐶**, a pet dog who has traveled more light-years✨ than most humans can imagine."

/-- Fixed refusal text returned on blocked image requests (chat handler, image branch). -/
def imageRefusalText : String :=
  "🚫 **Image generation is not available.**\n\nI can only assist with text-based conversations. Try asking me something else!"

/-- Fixed canned answer for creator/about questions (chat handler, creator branch). -/
def creatorResponseText : String := "🌙 I was created by **Moonlost**."

/-- Classifier `is_code_request` from the source: lowercase, strip, then
keyword substring membership. -/
def is_code_request (message : String) : Bool :=
  CODE_KEYWORDS.any (fun keyword => containsKeyword (pyNormalize message) keyword)

/-- Classifier `is_image_request` from the source. -/
def is_image_request (message : String) : Bool :=
  IMAGE_KEYWORDS.any (fun keyword => containsKeyword (pyNormalize message) keyword)

/-- Classifier `is_creator_request` from the source. -/
def is_creator_request (message : String) : Bool :=
  CREATOR_KEYWORDS.any (fun keyword => containsKeyword (pyNormalize message) keyword)

/-- Classifier `is_moonlost_request` from the source. -/
def is_moonlost_request (message : String) : Bool :=
  MOONLOST_KEYWORDS.any (fun keyword => containsKeyword (pyNormalize message) keyword)

example : is_image_request "draw me a dog" = true := by decide
example : is_code_request "draw me a dog" = false := by decide
example : is_image_request "draw a function" = true := by decide
example : is_code_request "draw a function" = true := by decide

/-- A chat message: a role (`"user"` or `"assistant"`) and content, as the
dictionaries `{'role': ..., 'content': ...}` stored in `conversations`. -/
structure Message where
  role : String
  content : String
deriving DecidableEq, Repr

/-- Lookup in an association list, modelling Python's `dict.get`. -/
def alookup (m : List (String × α)) (k : String) : Option α :=
  (m.find? (fun p => p.1 == k)).map Prod.snd

/-- Key update in an association list, modelling Python's `dict[k] = v`. -/
def aset (m : List (String × α)) (k : String) (v : α) : List (String × α) :=
  (k, v) :: m.filter (fun p => !(p.1 == k))

/-- Key removal from an association list, modelling Python's `del dict[k]`
guarded by `k in dict` (removal of a missing key is a no-op). -/
def aerase (m : List (String × α)) (k : String) : List (String × α) :=
  m.filter (fun p => !(p.1 == k))

/-- The server's module-level mutable state: the `conversations` dictionary
and the `conversation_turn` dictionary (`true` = Gemini, `false` = Groq). -/
structure ServerState where
  conversations : List (String × List Message)
  conversation_turn : List (String × Bool)
deriving DecidableEq, Repr

/-- The state at process start: both dictionaries empty. -/
def initialState : ServerState := ⟨[], []⟩

/-- The two upstream text providers. -/
inductive Provider where
  | gemini
  | groq
deriving DecidableEq, Repr

/-- The opposite provider, used for the fallback call. -/
def Provider.other : Provider → Provider
  | .gemini => .groq
  | .groq => .gemini

/-- Provider display name, as reported in the success dictionaries of
`call_gemini_api` and `call_groq_api`. -/
def Provider.name : Provider → String
  | .gemini => "Gemini"
  | .groq => "Groq"

/-- Result dictionary of a provider adapter call: `{'success': True,
'message': ...}` or `{'success': False, 'error': ...}`. -/
inductive ProviderResult where
  | success (message : String)
  | failure (error : String)
deriving DecidableEq, Repr

/-- The `success` flag of an adapter result. -/
def ProviderResult.isSuccess : ProviderResult → Bool
  | .success _ => true
  | .failure _ => false

/-- Oracle for the two provider adapters.  The adapters catch every upstream
exception and return a result dictionary, so they are modelled as a total
function from the capped message list to a result. -/
def Adapters := Provider → List Message → ProviderResult

/-- Body of a 200 JSON response of the chat endpoint: `message`,
`conversationId`, and the optional `imageBlocked` and `provider` keys. -/
structure ChatOk where
  message : String
  conversationId : String
  imageBlocked : Option Bool
  provider : Option String
deriving DecidableEq, Repr

/-- A chat endpoint response: a 200 body, or a JSON error object with its
HTTP status code. -/
inductive ChatResponse where
  | ok (body : ChatOk)
  | err (status : Nat) (error : String)
deriving DecidableEq, Repr

/-- Everything observable about one call of the chat handler: the response,
the state after the call, the providers invoked in order, and the message
list sent to them (empty when no provider was reached). -/
structure ChatOutcome where
  response : ChatResponse
  state : ServerState
  calls : List Provider
  sent : List Message
deriving DecidableEq, Repr

/-- The most recent `n` entries of a list, modelling Python's `l[-n:]`. -/
def lastN (n : Nat) (l : List α) : List α := l.drop (l.length - n)

/-- The variable `history` of the chat handler right after the user-message
append: the stored history of the conversation (or `[]` for a new id) with
the new `{'role': 'user', ...}` entry appended. -/
def historyAfterUser (st : ServerState) (conversationId message : String) :
    List Message :=
  ((alookup st.conversations conversationId).getD []) ++ [⟨"user", message⟩]

/-- The variable `messages` of the chat handler: the view `history[-20:]`
passed to the provider adapters. -/
def sentView (st : ServerState) (conversationId message : String) : List Message :=
  lastN 20 (historyAfterUser st conversationId message)

/-- Turn flag the router reads for a conversation id:
`conversation_turn.get(conversation_id, True)`. -/
def turnOf (st : ServerState) (conversationId : String) : Bool :=
  (alookup st.conversation_turn conversationId).getD true

/-- Primary provider the router picks from a state for a conversation id. -/
def primaryOf (st : ServerState) (conversationId : String) : Provider :=
  if turnOf st conversationId then .gemini else .groq

/-- The primary-then-fallback adapter chain of the chat handler: call the
chosen provider; if it fails, call the opposite one once.  Returns the final
result, the provider that produced it, and the providers invoked in order. -/
def chainResult (adapters : Adapters) (primary : Provider)
    (messages : List Message) : ProviderResult × Provider × List Provider :=
  match adapters primary messages with
  | .success reply => (.success reply, primary, [primary])
  | .failure _ => (adapters primary.other messages, primary.other,
      [primary, primary.other])

/-- Provider path of the chat handler (source lines 267-294): read the
history through the aliasing `conversations.get(conversation_id, [])`,
append the user message (visible in the store exactly when the id was
already present), cap the view sent upstream to the last 20 entries, pick
the provider from the turn flag (default Gemini) and flip the flag, call
the chosen adapter with single fallback to the other, and on success append
the assistant reply and store the history. -/
def chatProvider (adapters : Adapters) (st : ServerState)
    (conversationId message : String) : ChatOutcome :=
  let history1 := historyAfterUser st conversationId message
  let conversations1 :=
    if (alookup st.conversations conversationId).isSome then
      aset st.conversations conversationId history1
    else st.conversations
  let messages := sentView st conversationId message
  let turn1 := aset st.conversation_turn conversationId (!turnOf st conversationId)
  let chain := chainResult adapters (primaryOf st conversationId) messages
  match chain.1 with
  | .failure e => ⟨.err 500 e, ⟨conversations1, turn1⟩, chain.2.2, messages⟩
  | .success reply =>
      ⟨.ok ⟨reply, conversationId, none, some chain.2.1.name⟩,
        ⟨aset conversations1 conversationId (history1 ++ [⟨"assistant", reply⟩]),
          turn1⟩,
        chain.2.2, messages⟩

/-- The chat handler `chat` (route `POST /api/chat`): validation, the image
block (skipped for code requests), the moonlost and creator canned answers,
then the provider path. -/
def chat (adapters : Adapters) (st : ServerState)
    (conversationId message : String) : ChatOutcome :=
  if message = "" then
    ⟨.err 400 "Message is required", st, [], []⟩
  else if is_image_request message && !is_code_request message then
    ⟨.ok ⟨imageRefusalText, conversationId, some true, none⟩, st, [], []⟩
  else if is_moonlost_request message then
    ⟨.ok ⟨MOONLOST_RESPONSE, conversationId, none, none⟩, st, [], []⟩
  else if is_creator_request message then
    ⟨.ok ⟨creatorResponseText, conversationId, none, none⟩, st, [], []⟩
  else
    chatProvider adapters st conversationId message

/-- A response of the conversation retrieval endpoint. -/
inductive GetResponse where
  | ok (history : List Message)
  | err (status : Nat) (error : String)
deriving DecidableEq, Repr

/-- Handler `get_conversation` (route `GET /api/conversation/<id>`): 404 when
the id is absent or its history is empty (`if not history`), else the
history. -/
def get_conversation (st : ServerState) (conversationId : String) : GetResponse :=
  match alookup st.conversations conversationId with
  | none => .err 404 "Conversation not found"
  | some history =>
      if history.isEmpty then .err 404 "Conversation not found"
      else .ok history

/-- Handler `delete_conversation` (route `DELETE /api/conversation/<id>`):
removes the id from both dictionaries when present and always answers 200
with a fixed message. -/
def delete_conversation (st : ServerState) (conversationId : String) :
    ServerState × (Nat × String) :=
  (⟨aerase st.conversations conversationId, aerase st.conversation_turn conversationId⟩,
    (200, "Conversation cleared"))

/-- A non-empty message on which the handler reaches the provider path: it
is not image-blocked, not a moonlost question and not a creator question. -/
def reachesProviderPath (message : String) : Bool :=
  (message != "") &&
  !(is_image_request message && !is_code_request message) &&
  !is_moonlost_request message &&
  !is_creator_request message

/-- Sequential chat calls on one conversation id, returning the final state
and each call's outcome in order. -/
def runChats (adapters : Adapters) (st : ServerState) (conversationId : String) :
    List String → ServerState × List ChatOutcome
  | [] => (st, [])
  | m :: ms =>
      let r := chat adapters st conversationId m
      let rest := runChats adapters r.state conversationId ms
      (rest.1, r :: rest.2)

theorem alookup_aset_self (m : List (String × α)) (k : String) (v : α) :
    alookup (aset m k v) k = some v := by
  simp [alookup, aset, List.find?]

theorem alookup_aerase_self (m : List (String × α)) (k : String) :
    alookup (aerase m k) k = none := by
  induction m with
  | nil => rfl
  | cons p m ih =>
      by_cases h : p.1 == k
      · simpa [aerase, List.filter_cons, h] using ih
      · simp only [aerase, List.filter_cons, h]
        simpa [aerase, alookup, List.find?, h] using ih

theorem aerase_aerase (m : List (String × α)) (k : String) :
    aerase (aerase m k) k = aerase m k := by
  induction m with
  | nil => rfl
  | cons p m ih =>
      by_cases h : p.1 == k
      · simpa [aerase, List.filter_cons, h] using ih
      · simp only [aerase, List.filter_cons, h]
        simpa [aerase, List.filter_cons, h] using ih

theorem lastN_length (n : Nat) (l : List α) :
    (lastN n l).length = min n l.length := by
  simp [lastN]
  omega

theorem lastN_concat_two (l : List α) (x y : α) :
    lastN 2 (l ++ [x, y]) = [x, y] := by
  have h : (l ++ [x, y]).length - 2 = l.length := by
    simp [List.length_append]
  rw [lastN, h]
  exact List.drop_left l [x, y]

theorem is_image_request_empty : is_image_request "" = false := by decide

theorem is_moonlost_request_empty : is_moonlost_request "" = false := by decide

theorem is_creator_request_empty : is_creator_request "" = false := by decide

theorem chat_image_block_eq (adapters : Adapters) (st : ServerState) (cid m : String)
    (himg : is_image_request m = true) (hcode : is_code_request m = false) :
    chat adapters st cid m = ⟨.ok ⟨imageRefusalText, cid, some true, none⟩, st, [], []⟩ := by
  have hne : ¬ m = "" := by
    intro h
    rw [h, is_image_request_empty] at himg
    exact Bool.false_ne_true himg
  simp [chat, hne, himg, hcode]

theorem chat_moonlost_eq (adapters : Adapters) (st : ServerState) (cid m : String)
    (hblock : (is_image_request m && !is_code_request m) = false)
    (hml : is_moonlost_request m = true) :
    chat adapters st cid m = ⟨.ok ⟨MOONLOST_RESPONSE, cid, none, none⟩, st, [], []⟩ := by
  have hne : ¬ m = "" := by
    intro h
    rw [h, is_moonlost_request_empty] at hml
    exact Bool.false_ne_true hml
  simp [chat, hne, hblock, hml]

theorem chat_creator_eq (adapters : Adapters) (st : ServerState) (cid m : String)
    (hblock : (is_image_request m && !is_code_request m) = false)
    (hml : is_moonlost_request m = false)
    (hcr : is_creator_request m = true) :
    chat adapters st cid m = ⟨.ok ⟨creatorResponseText, cid, none, none⟩, st, [], []⟩ := by
  have hne : ¬ m = "" := by
    intro h
    rw [h, is_creator_request_empty] at hcr
    exact Bool.false_ne_true hcr
  simp [chat, hne, hblock, hml, hcr]

theorem reachesProviderPath_parts (m : String) (hm : reachesProviderPath m = true) :
    ¬ m = "" ∧ (is_image_request m && !is_code_request m) = false ∧
      is_moonlost_request m = false ∧ is_creator_request m = false := by
  simp only [reachesProviderPath, Bool.and_eq_true, bne_iff_ne, ne_eq,
    Bool.not_eq_true'] at hm
  exact ⟨hm.1.1.1, hm.1.1.2, hm.1.2, hm.2⟩

theorem chat_eq_chatProvider (adapters : Adapters) (st : ServerState) (cid m : String)
    (hm : reachesProviderPath m = true) :
    chat adapters st cid m = chatProvider adapters st cid m := by
  obtain ⟨hne, hblock, hml, hcr⟩ := reachesProviderPath_parts m hm
  simp [chat, hne, hblock, hml, hcr]

theorem chainResult_of_success (adapters : Adapters) (p : Provider)
    (msgs : List Message) (reply : String)
    (h : adapters p msgs = .success reply) :
    chainResult adapters p msgs = (.success reply, p, [p]) := by
  simp [chainResult, h]

theorem chainResult_of_failure (adapters : Adapters) (p : Provider)
    (msgs : List Message) (e : String)
    (h : adapters p msgs = .failure e) :
    chainResult adapters p msgs =
      (adapters p.other msgs, p.other, [p, p.other]) := by
  simp [chainResult, h]

theorem chatProvider_of_chain_success (adapters : Adapters) (st : ServerState)
    (cid m : String) (reply : String) (q : Provider) (cs : List Provider)
    (h : chainResult adapters (primaryOf st cid) (sentView st cid m) =
      (.success reply, q, cs)) :
    chatProvider adapters st cid m =
      ⟨.ok ⟨reply, cid, none, some q.name⟩,
        ⟨aset (if (alookup st.conversations cid).isSome then
            aset st.conversations cid (historyAfterUser st cid m)
          else st.conversations) cid
          (historyAfterUser st cid m ++ [⟨"assistant", reply⟩]),
          aset st.conversation_turn cid (!turnOf st cid)⟩,
        cs, sentView st cid m⟩ := by
  simp [chatProvider, h]

theorem chatProvider_of_chain_failure (adapters : Adapters) (st : ServerState)
    (cid m : String) (e : String) (q : Provider) (cs : List Provider)
    (h : chainResult adapters (primaryOf st cid) (sentView st cid m) =
      (.failure e, q, cs)) :
    chatProvider adapters st cid m =
      ⟨.err 500 e,
        ⟨(if (alookup st.conversations cid).isSome then
            aset st.conversations cid (historyAfterUser st cid m)
          else st.conversations),
          aset st.conversation_turn cid (!turnOf st cid)⟩,
        cs, sentView st cid m⟩ := by
  simp [chatProvider, h]

theorem chatProvider_response_cases (adapters : Adapters) (st : ServerState)
    (cid m : String) :
    (∃ reply q, (chatProvider adapters st cid m).response =
      .ok ⟨reply, cid, none, some (Provider.name q)⟩) ∨
    (∃ e, (chatProvider adapters st cid m).response = .err 500 e) := by
  rcases h : chainResult adapters (primaryOf st cid) (sentView st cid m) with ⟨res, q, cs⟩
  cases res with
  | success reply =>
      left
      exact ⟨reply, q, by rw [chatProvider_of_chain_success adapters st cid m reply q cs h]⟩
  | failure e =>
      right
      exact ⟨e, by rw [chatProvider_of_chain_failure adapters st cid m e q cs h]⟩

/-- C5: a message classified as image and not code gets the fixed refusal with
`imageBlocked = true`; the store and the turn map are unchanged and no
provider adapter is invoked. -/
theorem image_block_frame (adapters : Adapters) (st : ServerState) (cid m : String)
    (himg : is_image_request m = true) (hcode : is_code_request m = false) :
    (chat adapters st cid m).response = .ok ⟨imageRefusalText, cid, some true, none⟩ ∧
    (chat adapters st cid m).state = st ∧
    (chat adapters st cid m).calls = [] := by
  rw [chat_image_block_eq adapters st cid m himg hcode]
  exact ⟨rfl, rfl, rfl⟩

/-- Witness to C5 at the spec scenario `draw me a dog`. -/
theorem image_block_frame_witness :
    is_image_request "draw me a dog" = true ∧
    is_code_request "draw me a dog" = false ∧
    (chat (fun _ _ => .success "ok") initialState "c" "draw me a dog").response =
      .ok ⟨imageRefusalText, "c", some true, none⟩ ∧
    (chat (fun _ _ => .success "ok") initialState "c" "draw me a dog").state = initialState ∧
    (chat (fun _ _ => .success "ok") initialState "c" "draw me a dog").calls = [] := by
  refine ⟨by decide, by decide, ?_⟩
  have h := image_block_frame (fun _ _ => .success "ok") initialState "c" "draw me a dog"
    (by decide) (by decide)
  exact ⟨h.1, h.2.1, h.2.2⟩

/-- C10: a moonlost or creator question that is not image-blocked gets the
corresponding canned text; no provider is invoked and the state is
unchanged, so the canned exchange is never recorded in the history. -/
theorem canned_reply_frame (adapters : Adapters) (st : ServerState) (cid m : String)
    (hblock : (is_image_request m && !is_code_request m) = false)
    (hmc : is_moonlost_request m = true ∨ is_creator_request m = true) :
    (chat adapters st cid m).response =
      .ok ⟨if is_moonlost_request m then MOONLOST_RESPONSE else creatorResponseText,
        cid, none, none⟩ ∧
    (chat adapters st cid m).state = st ∧
    (chat adapters st cid m).calls = [] := by
  by_cases hml : is_moonlost_request m = true
  · rw [chat_moonlost_eq adapters st cid m hblock hml]
    simp [hml]
  · have hml' : is_moonlost_request m = false := by
      cases h : is_moonlost_request m
      · rfl
      · exact absurd h hml
    rcases hmc with hml2 | hcr
    · exact absurd hml2 hml
    · rw [chat_creator_eq adapters st cid m hblock hml' hcr]
      simp [hml']

/-- Witness to C10 at the spec scenario `who made you`. -/
theorem canned_reply_frame_witness :
    (chat (fun _ _ => .success "ok") initialState "c" "who made you").response =
      .ok ⟨creatorResponseText, "c", none, none⟩ ∧
    (chat (fun _ _ => .success "ok") initialState "c" "who made you").state = initialState ∧
    (chat (fun _ _ => .success "ok") initialState "c" "who made you").calls = [] := by
  have h := canned_reply_frame (fun _ _ => .success "ok") initialState "c" "who made you"
    (by decide) (Or.inr (by decide))
  have he : (if is_moonlost_request "who made you" then MOONLOST_RESPONSE
      else creatorResponseText) = creatorResponseText := by decide
  rw [he] at h
  exact h

/-- C1: a message matching both an image keyword and a code keyword is never
image-blocked: any 200 body carries no `imageBlocked` flag, the response is
not the image refusal, and when neither canned branch matches either, the
handler runs the provider path. -/
theorem code_overrides_image_block (adapters : Adapters) (st : ServerState)
    (cid m : String)
    (himg : is_image_request m = true) (hcode : is_code_request m = true) :
    (∀ body, (chat adapters st cid m).response = .ok body → body.imageBlocked = none) ∧
    (chat adapters st cid m).response ≠ .ok ⟨imageRefusalText, cid, some true, none⟩ ∧
    (is_moonlost_request m = false → is_creator_request m = false →
      chat adapters st cid m = chatProvider adapters st cid m) := by
  have hblock : (is_image_request m && !is_code_request m) = false := by
    simp [hcode]
  have hne : ¬ m = "" := by
    intro h
    rw [h, is_image_request_empty] at himg
    exact Bool.false_ne_true himg
  by_cases hml : is_moonlost_request m = true
  · rw [chat_moonlost_eq adapters st cid m hblock hml]
    refine ⟨?_, ?_, ?_⟩
    · intro body hb
      cases hb
      rfl
    · intro hcontra
      simp at hcontra
    · intro hml2 _
      rw [hml2] at hml
      exact (Bool.false_ne_true hml).elim
  · have hml' : is_moonlost_request m = false := by
      cases h : is_moonlost_request m
      · rfl
      · exact absurd h hml
    by_cases hcr : is_creator_request m = true
    · rw [chat_creator_eq adapters st cid m hblock hml' hcr]
      refine ⟨?_, ?_, ?_⟩
      · intro body hb
        cases hb
        rfl
      · intro hcontra
        simp at hcontra
      · intro _ hcr2
        rw [hcr2] at hcr
        exact (Bool.false_ne_true hcr).elim
    · have hcr' : is_creator_request m = false := by
        cases h : is_creator_request m
        · rfl
        · exact absurd h hcr
      have hchat : chat adapters st cid m = chatProvider adapters st cid m := by
        simp [chat, hne, hblock, hml', hcr']
      refine ⟨?_, ?_, fun _ _ => hchat⟩
      · intro body hb
        rw [hchat] at hb
        rcases chatProvider_response_cases adapters st cid m with ⟨reply, q, hres⟩ | ⟨e, hres⟩
        · rw [hres] at hb
          cases hb
          rfl
        · rw [hres] at hb
          cases hb
      · intro hcontra
        rw [hchat] at hcontra
        rcases chatProvider_response_cases adapters st cid m with ⟨reply, q, hres⟩ | ⟨e, hres⟩
        · rw [hres] at hcontra
          cases hcontra
        · rw [hres] at hcontra
          cases hcontra

/-- Witness to C1 at the message `draw a function`. -/
theorem code_overrides_image_block_witness :
    is_image_request "draw a function" = true ∧
    is_code_request "draw a function" = true ∧
    ((∀ body, (chat (fun _ _ => .success "ok") initialState "c" "draw a function").response =
        .ok body → body.imageBlocked = none) ∧
     (chat (fun _ _ => .success "ok") initialState "c" "draw a function").response ≠
        .ok ⟨imageRefusalText, "c", some true, none⟩ ∧
     (is_moonlost_request "draw a function" = false →
      is_creator_request "draw a function" = false →
      chat (fun _ _ => .success "ok") initialState "c" "draw a function" =
        chatProvider (fun _ _ => .success "ok") initialState "c" "draw a function")) :=
  ⟨by decide, by decide,
    code_overrides_image_block (fun _ _ => .success "ok") initialState "c"
      "draw a function" (by decide) (by decide)⟩

/-- Counterexample to C2: `draw moonlost?` matches a moonlost keyword and an
image keyword and no code keyword, yet the handler answers with the
image-blocked refusal rather than the moonlost canned text. -/
theorem image_precedes_moonlost_cex :
    is_moonlost_request "draw moonlost?" = true ∧
    is_image_request "draw moonlost?" = true ∧
    is_code_request "draw moonlost?" = false ∧
    (chat (fun _ _ => .success "ok") initialState "c" "draw moonlost?").response =
      .ok ⟨imageRefusalText, "c", some true, none⟩ ∧
    imageRefusalText ≠ MOONLOST_RESPONSE := by
  exact ⟨by decide, by decide, by decide, by decide, by decide⟩

/-- C2 as amended: when a message matches a moonlost keyword together with an
image keyword and no code keyword, the image block wins: the handler
returns the image refusal with `imageBlocked = true`, untouched state and
no provider call, not the moonlost canned text. -/
theorem image_block_overrides_moonlost (adapters : Adapters) (st : ServerState)
    (cid m : String)
    (_hml : is_moonlost_request m = true) (himg : is_image_request m = true)
    (hcode : is_code_request m = false) :
    chat adapters st cid m =
      ⟨.ok ⟨imageRefusalText, cid, some true, none⟩, st, [], []⟩ ∧
    imageRefusalText ≠ MOONLOST_RESPONSE := by
  refine ⟨chat_image_block_eq adapters st cid m himg hcode, by decide⟩

/-- Witness to the amended C2 at `draw moonlost?`. -/
theorem image_block_overrides_moonlost_witness :
    chat (fun _ _ => .success "ok") initialState "c" "draw moonlost?" =
      ⟨.ok ⟨imageRefusalText, "c", some true, none⟩, initialState, [], []⟩ ∧
    imageRefusalText ≠ MOONLOST_RESPONSE :=
  image_block_overrides_moonlost (fun _ _ => .success "ok") initialState "c"
    "draw moonlost?" (by decide) (by decide) (by decide)

/-- C9: deletion always answers 200 with the fixed message, removes the id
from both maps, and is idempotent: a second deletion returns the same state
and response. -/
theorem delete_conversation_idempotent (st : ServerState) (cid : String) :
    (delete_conversation st cid).2 = (200, "Conversation cleared") ∧
    alookup (delete_conversation st cid).1.conversations cid = none ∧
    alookup (delete_conversation st cid).1.conversation_turn cid = none ∧
    delete_conversation (delete_conversation st cid).1 cid = delete_conversation st cid := by
  refine ⟨rfl, alookup_aerase_self _ _, alookup_aerase_self _ _, ?_⟩
  simp [delete_conversation, aerase_aerase]

/-- C4: the message list sent to the providers is the last 20 entries of the
history including the new user message (its length is `min 20 (n+1)` for a
stored history of length `n`), while on success the store keeps every
entry. -/
theorem provider_messages_capped (adapters : Adapters) (st : ServerState)
    (cid m : String) (hm : reachesProviderPath m = true) :
    (chat adapters st cid m).sent =
      lastN 20 (((alookup st.conversations cid).getD []) ++ [⟨"user", m⟩]) ∧
    (chat adapters st cid m).sent.length =
      min 20 (((alookup st.conversations cid).getD []).length + 1) ∧
    (∀ body, (chat adapters st cid m).response = .ok body →
      alookup (chat adapters st cid m).state.conversations cid =
        some (((alookup st.conversations cid).getD []) ++
          [⟨"user", m⟩, ⟨"assistant", body.message⟩])) := by
  rw [chat_eq_chatProvider adapters st cid m hm]
  rcases hc : chainResult adapters (primaryOf st cid) (sentView st cid m) with ⟨res, q, cs⟩
  cases res with
  | success reply =>
      rw [chatProvider_of_chain_success adapters st cid m reply q cs hc]
      refine ⟨rfl, ?_, ?_⟩
      · simp [sentView, historyAfterUser, lastN_length]
      · intro body hb
        cases hb
        rw [alookup_aset_self]
        simp [historyAfterUser]
  | failure e =>
      rw [chatProvider_of_chain_failure adapters st cid m e q cs hc]
      refine ⟨rfl, ?_, ?_⟩
      · simp [sentView, historyAfterUser, lastN_length]
      · intro body hb
        simp at hb

/-- Witness to C4 at the boundary: a stored history of 20 messages; the 21st
message still succeeds, the providers see exactly 20 entries, and the store
keeps all 22. -/
theorem provider_messages_capped_witness :
    reachesProviderPath "hi" = true ∧
    (chat (fun _ _ => .success "ok")
      ⟨[("c", List.replicate 20 ⟨"user", "hi"⟩)], []⟩ "c" "hi").sent.length = 20 ∧
    alookup (chat (fun _ _ => .success "ok")
        ⟨[("c", List.replicate 20 ⟨"user", "hi"⟩)], []⟩ "c" "hi").state.conversations "c" =
      some (List.replicate 20 ⟨"user", "hi"⟩ ++ [⟨"user", "hi"⟩, ⟨"assistant", "ok"⟩]) := by
  have h := provider_messages_capped (fun _ _ => .success "ok")
    ⟨[("c", List.replicate 20 (⟨"user", "hi"⟩ : Message))], []⟩ "c" "hi" (by decide)
  refine ⟨by decide, ?_, ?_⟩
  · rw [h.2.1]
    decide
  · rw [h.2.2 ⟨"ok", "c", none, some "Gemini"⟩ (by decide)]
    decide

/-- Counterexample to C6: with a fresh conversation id and both providers
failing, the handler answers 500 but the store has no entry for the id at
all, so the user message does not remain in any stored history. -/
theorem total_failure_new_conversation_cex :
    reachesProviderPath "hi" = true ∧
    (chat (fun _ _ => .failure "boom") initialState "c" "hi").response = .err 500 "boom" ∧
    alookup (chat (fun _ _ => .failure "boom") initialState "c" "hi").state.conversations "c" =
      none := by
  exact ⟨by decide, by decide, by decide⟩

/-- C6 as amended: on total provider failure the handler answers 500 after
invoking both providers; a conversation id already present in the store
keeps the appended user message (no rollback), while a new id gets no store
entry at all. -/
theorem total_failure_history (adapters : Adapters) (st : ServerState)
    (cid m e : String)
    (hm : reachesProviderPath m = true)
    (hfail : (chat adapters st cid m).response = .err 500 e) :
    (chat adapters st cid m).calls = [primaryOf st cid, (primaryOf st cid).other] ∧
    alookup (chat adapters st cid m).state.conversations cid =
      (alookup st.conversations cid).map (fun H => H ++ [⟨"user", m⟩]) := by
  rw [chat_eq_chatProvider adapters st cid m hm] at hfail ⊢
  cases h1 : adapters (primaryOf st cid) (sentView st cid m) with
  | success reply =>
      have hc := chainResult_of_success adapters (primaryOf st cid) (sentView st cid m) reply h1
      rw [chatProvider_of_chain_success adapters st cid m reply _ _ hc] at hfail
      simp at hfail
  | failure e1 =>
      have hc0 := chainResult_of_failure adapters (primaryOf st cid) (sentView st cid m) e1 h1
      cases h2 : adapters (primaryOf st cid).other (sentView st cid m) with
      | success reply =>
          have hc : chainResult adapters (primaryOf st cid) (sentView st cid m) =
              (.success reply, (primaryOf st cid).other,
               [primaryOf st cid, (primaryOf st cid).other]) := by
            rw [hc0, h2]
          rw [chatProvider_of_chain_success adapters st cid m reply _ _ hc] at hfail
          simp at hfail
      | failure e2 =>
          have hc : chainResult adapters (primaryOf st cid) (sentView st cid m) =
              (.failure e2, (primaryOf st cid).other,
               [primaryOf st cid, (primaryOf st cid).other]) := by
            rw [hc0, h2]
          rw [chatProvider_of_chain_failure adapters st cid m e2 _ _ hc] at hfail ⊢
          refine ⟨rfl, ?_⟩
          rcases hlk : alookup st.conversations cid with _ | H
          · simp [hlk]
          · simp [hlk, alookup_aset_self, historyAfterUser]

/-- Witness to the amended C6: an existing conversation keeps the user
message after a total failure. -/
theorem total_failure_history_witness :
    (chat (fun _ _ => .failure "boom")
      ⟨[("c", [⟨"user", "old"⟩])], []⟩ "c" "hi").calls =
      [Provider.gemini, Provider.groq] ∧
    alookup (chat (fun _ _ => .failure "boom")
        ⟨[("c", [⟨"user", "old"⟩])], []⟩ "c" "hi").state.conversations "c" =
      some [⟨"user", "old"⟩, ⟨"user", "hi"⟩] := by
  have h := total_failure_history (fun _ _ => .failure "boom")
    ⟨[("c", [(⟨"user", "old"⟩ : Message)])], []⟩ "c" "hi" "boom" (by decide) (by decide)
  refine ⟨?_, ?_⟩
  · rw [h.1]
    decide
  · rw [h.2]
    decide

/-- Counterexample to C7: the 500 response on total provider failure echoes
the adapter's error string verbatim, here one containing an upstream URL
and a credential. -/
theorem error_message_leaks_cex :
    (chat (fun _ _ => .failure "401 Unauthorized: key sk-secret at https://api.upstream.example/v1")
      initialState "c" "hi").response =
      .err 500 "401 Unauthorized: key sk-secret at https://api.upstream.example/v1" := by
  decide

/-- C7 as amended: every failure response is a JSON object with an `error`
string; the validation failure carries the fixed message `Message is
required`, while the 500 on total provider failure carries the fallback
adapter's error string verbatim (which may contain upstream detail). -/
theorem error_responses (adapters : Adapters) (st : ServerState)
    (cid m e : String)
    (hm : reachesProviderPath m = true)
    (hfail : (chat adapters st cid m).response = .err 500 e) :
    (chat adapters st cid "").response = .err 400 "Message is required" ∧
    adapters (primaryOf st cid).other (sentView st cid m) = .failure e := by
  refine ⟨by simp [chat], ?_⟩
  rw [chat_eq_chatProvider adapters st cid m hm] at hfail
  cases h1 : adapters (primaryOf st cid) (sentView st cid m) with
  | success reply =>
      have hc := chainResult_of_success adapters (primaryOf st cid) (sentView st cid m) reply h1
      rw [chatProvider_of_chain_success adapters st cid m reply _ _ hc] at hfail
      simp at hfail
  | failure e1 =>
      have hc0 := chainResult_of_failure adapters (primaryOf st cid) (sentView st cid m) e1 h1
      cases h2 : adapters (primaryOf st cid).other (sentView st cid m) with
      | success reply =>
          have hc : chainResult adapters (primaryOf st cid) (sentView st cid m) =
              (.success reply, (primaryOf st cid).other,
               [primaryOf st cid, (primaryOf st cid).other]) := by
            rw [hc0, h2]
          rw [chatProvider_of_chain_success adapters st cid m reply _ _ hc] at hfail
          simp at hfail
      | failure e2 =>
          have hc : chainResult adapters (primaryOf st cid) (sentView st cid m) =
              (.failure e2, (primaryOf st cid).other,
               [primaryOf st cid, (primaryOf st cid).other]) := by
            rw [hc0, h2]
          rw [chatProvider_of_chain_failure adapters st cid m e2 _ _ hc] at hfail
          have hfail2 : ChatResponse.err 500 e2 = ChatResponse.err 500 e := hfail
          have he : e2 = e := by
            injection hfail2 with hs he
          rw [he]

/-- Witness to the amended C7. -/
theorem error_responses_witness :
    (chat (fun _ _ => .failure "boom") initialState "c" "").response =
      .err 400 "Message is required" ∧
    (fun (_ : Provider) (_ : List Message) => ProviderResult.failure "boom")
      (primaryOf initialState "c").other (sentView initialState "c" "hi") =
      .failure "boom" :=
  error_responses (fun _ _ => .failure "boom") initialState "c" "hi" "boom"
    (by decide) (by decide)

/-- C8: after a chat call answered 200 with a provider name (a provider-path
success), reading the conversation returns the stored history, whose last
two entries are exactly the sent user message and the returned assistant
reply, in that order. -/
theorem chat_get_roundtrip (adapters : Adapters) (st : ServerState)
    (cid m : String) (body : ChatOk) (p : String)
    (hok : (chat adapters st cid m).response = .ok body)
    (hp : body.provider = some p) :
    get_conversation (chat adapters st cid m).state cid =
      .ok (((alookup st.conversations cid).getD []) ++
        [⟨"user", m⟩, ⟨"assistant", body.message⟩]) ∧
    lastN 2 (((alookup st.conversations cid).getD []) ++
        [⟨"user", m⟩, ⟨"assistant", body.message⟩]) =
      [⟨"user", m⟩, ⟨"assistant", body.message⟩] := by
  by_cases hne : m = ""
  · rw [hne] at hok
    simp [chat] at hok
  · by_cases hblockt : (is_image_request m && !is_code_request m) = true
    · obtain ⟨himg, hcode'⟩ := Bool.and_eq_true _ _ |>.mp hblockt
      have hcode : is_code_request m = false := by simpa using hcode'
      rw [chat_image_block_eq adapters st cid m himg hcode] at hok
      cases hok
      simp at hp
    · have hblock : (is_image_request m && !is_code_request m) = false := by
        cases h : (is_image_request m && !is_code_request m)
        · rfl
        · exact absurd h hblockt
      by_cases hmlt : is_moonlost_request m = true
      · rw [chat_moonlost_eq adapters st cid m hblock hmlt] at hok
        cases hok
        simp at hp
      · have hml : is_moonlost_request m = false := by
          cases h : is_moonlost_request m
          · rfl
          · exact absurd h hmlt
        by_cases hcrt : is_creator_request m = true
        · rw [chat_creator_eq adapters st cid m hblock hml hcrt] at hok
          cases hok
          simp at hp
        · have hcr : is_creator_request m = false := by
            cases h : is_creator_request m
            · rfl
            · exact absurd h hcrt
          have hm : reachesProviderPath m = true := by
            simp [reachesProviderPath, hne, hblock, hml, hcr]
          rw [chat_eq_chatProvider adapters st cid m hm] at hok ⊢
          rcases hc : chainResult adapters (primaryOf st cid) (sentView st cid m) with ⟨res, q, cs⟩
          cases res with
          | failure e =>
              rw [chatProvider_of_chain_failure adapters st cid m e q cs hc] at hok
              simp at hok
          | success reply =>
              rw [chatProvider_of_chain_success adapters st cid m reply q cs hc] at hok ⊢
              cases hok
              refine ⟨?_, lastN_concat_two _ _ _⟩
              simp [get_conversation, alookup_aset_self, historyAfterUser]

/-- Witness to C8 at a concrete successful call. -/
theorem chat_get_roundtrip_witness :
    get_conversation (chat (fun _ _ => .success "ok") initialState "c" "hi").state "c" =
      .ok [⟨"user", "hi"⟩, ⟨"assistant", "ok"⟩] ∧
    lastN 2 [(⟨"user", "hi"⟩ : Message), ⟨"assistant", "ok"⟩] =
      [⟨"user", "hi"⟩, ⟨"assistant", "ok"⟩] := by
  have h := chat_get_roundtrip (fun _ _ => .success "ok") initialState "c" "hi"
    ⟨"ok", "c", none, some "Gemini"⟩ "Gemini" (by decide) (by decide)
  refine ⟨?_, by decide⟩
  rw [h.1]
  decide

/-- Selection flag after `i` flips of an initial flag `b`. -/
def selAt (b : Bool) (i : Nat) : Bool := if i % 2 = 0 then b else !b

/-- Provider chosen on the `i`-th provider-path call of a fresh conversation:
Gemini on even indices, Groq on odd ones. -/
def providerAt (i : Nat) : Provider := if i % 2 = 0 then .gemini else .groq

theorem selAt_not (b : Bool) (j : Nat) : selAt (!b) j = selAt b (j + 1) := by
  rcases Nat.mod_two_eq_zero_or_one j with h | h
  · have h1 : (j + 1) % 2 = 1 := by omega
    simp [selAt, h, h1]
  · have h1 : (j + 1) % 2 = 0 := by omega
    simp [selAt, h, h1]

theorem chat_provider_turn_calls (adapters : Adapters) (st : ServerState)
    (cid m : String) (hm : reachesProviderPath m = true) :
    turnOf (chat adapters st cid m).state cid = !turnOf st cid ∧
    (chat adapters st cid m).sent = sentView st cid m ∧
    (chat adapters st cid m).calls =
      (if (adapters (primaryOf st cid) ((chat adapters st cid m).sent)).isSuccess
       then [primaryOf st cid]
       else [primaryOf st cid, (primaryOf st cid).other]) := by
  rw [chat_eq_chatProvider adapters st cid m hm]
  cases h1 : adapters (primaryOf st cid) (sentView st cid m) with
  | success reply =>
      have hc := chainResult_of_success adapters (primaryOf st cid) (sentView st cid m) reply h1
      rw [chatProvider_of_chain_success adapters st cid m reply _ _ hc]
      refine ⟨?_, rfl, ?_⟩
      · simp [turnOf, alookup_aset_self]
      · simp [h1, ProviderResult.isSuccess]
  | failure e1 =>
      have hc0 := chainResult_of_failure adapters (primaryOf st cid) (sentView st cid m) e1 h1
      cases h2 : adapters (primaryOf st cid).other (sentView st cid m) with
      | success reply =>
          have hc : chainResult adapters (primaryOf st cid) (sentView st cid m) =
              (.success reply, (primaryOf st cid).other,
               [primaryOf st cid, (primaryOf st cid).other]) := by
            rw [hc0, h2]
          rw [chatProvider_of_chain_success adapters st cid m reply _ _ hc]
          refine ⟨?_, rfl, ?_⟩
          · simp [turnOf, alookup_aset_self]
          · simp [h1, ProviderResult.isSuccess]
      | failure e2 =>
          have hc : chainResult adapters (primaryOf st cid) (sentView st cid m) =
              (.failure e2, (primaryOf st cid).other,
               [primaryOf st cid, (primaryOf st cid).other]) := by
            rw [hc0, h2]
          rw [chatProvider_of_chain_failure adapters st cid m e2 _ _ hc]
          refine ⟨?_, rfl, ?_⟩
          · simp [turnOf, alookup_aset_self]
          · simp [h1, ProviderResult.isSuccess]

theorem runChats_get (adapters : Adapters) (cid : String) (msgs : List String) :
    ∀ (st : ServerState) (i : Nat),
      (∀ m ∈ msgs, reachesProviderPath m = true) → i < msgs.length →
      ∃ r : ChatOutcome,
        ((runChats adapters st cid msgs).2).get? i = some r ∧
        r.calls =
          (if (adapters (if selAt (turnOf st cid) i then Provider.gemini else Provider.groq)
              r.sent).isSuccess
           then [if selAt (turnOf st cid) i then Provider.gemini else Provider.groq]
           else [(if selAt (turnOf st cid) i then Provider.gemini else Provider.groq),
                 (if selAt (turnOf st cid) i then Provider.gemini
                  else Provider.groq).other]) ∧
        turnOf r.state cid = !(selAt (turnOf st cid) i) := by
  induction msgs with
  | nil =>
      intro st i h hi
      simp at hi
  | cons m ms ih =>
      intro st i h hi
      have hm : reachesProviderPath m = true := h m (by simp)
      have hstep := chat_provider_turn_calls adapters st cid m hm
      match i with
      | 0 =>
          refine ⟨chat adapters st cid m, ?_, ?_, ?_⟩
          · simp [runChats]
          · simpa [selAt, primaryOf] using hstep.2.2
          · simpa [selAt] using hstep.1
      | Nat.succ j =>
          have hj : j < ms.length := by simpa using hi
          obtain ⟨r, hr, hcalls, hturn⟩ :=
            ih (chat adapters st cid m).state j (fun x hx => h x (by simp [hx])) hj
          rw [hstep.1, selAt_not] at hcalls hturn
          refine ⟨r, ?_, hcalls, hturn⟩
          simpa [runChats] using hr

/-- C3: over a sequence of provider-path chat calls on one conversation id
from a fresh start, the primary provider strictly alternates starting from
Gemini; within each call the opposite provider is invoked exactly once as
fallback when the primary fails (the call list is `[p]` on primary success
and `[p, p.other]` otherwise), and the turn flag is flipped regardless of
the call's outcome. -/
theorem provider_alternation (adapters : Adapters) (cid : String)
    (msgs : List String) (i : Nat)
    (hmsgs : ∀ m ∈ msgs, reachesProviderPath m = true) (hi : i < msgs.length) :
    ∃ r : ChatOutcome,
      ((runChats adapters initialState cid msgs).2).get? i = some r ∧
      r.calls = (if (adapters (providerAt i) r.sent).isSuccess
                 then [providerAt i]
                 else [providerAt i, (providerAt i).other]) ∧
      turnOf r.state cid = (if i % 2 = 0 then false else true) := by
  obtain ⟨r, hr, hcalls, hturn⟩ := runChats_get adapters cid msgs initialState i hmsgs hi
  have hb : turnOf initialState cid = true := rfl
  rw [hb] at hcalls hturn
  refine ⟨r, hr, ?_, ?_⟩
  · rcases Nat.mod_two_eq_zero_or_one i with h | h <;>
      simpa [selAt, providerAt, h] using hcalls
  · rcases Nat.mod_two_eq_zero_or_one i with h | h <;>
      simpa [selAt, h] using hturn

/-- Witness to C3: with an always-succeeding adapter, the second call of a
two-call conversation invokes exactly Groq and leaves the flag back at
Gemini. -/
theorem provider_alternation_witness :
    (((runChats (fun _ _ => .success "ok") initialState "c" ["hi", "hey"]).2).get? 1).map
      (fun r => (r.calls, turnOf r.state "c")) = some ([Provider.groq], true) := by
  obtain ⟨r, hr, hcalls, hturn⟩ := provider_alternation (fun _ _ => .success "ok") "c"
    ["hi", "hey"] 1 (by decide) (by decide)
  rw [hr]
  have hc : r.calls = [Provider.groq] := by
    simpa [providerAt, ProviderResult.isSuccess] using hcalls
  have ht : turnOf r.state "c" = true := by
    simpa using hturn
  simp [hc, ht]
